import Mathlib

/-!
Verification of the data aggregation and derived-metrics layer of the
Hydrolytix agri-intelligence dashboard.

The embedding below translates `src/utils/data_loader.py` (class `DataLoader`),
`src/components/comparison.py` (class `YearComparison`) and
`src/components/forecasting.py` (class `Forecasting`) into Lean.

Modelling conventions:
* A pandas `DataFrame` of records is a `List Row`; column values are `ℚ`
  (the float arithmetic performed by the code on these columns is exact
  sum / mean arithmetic, no rounding).
* The `year` selector string is modelled post-`int()`-coercion as
  `Option Int`: `none` is the `"All"` sentinel, `some y` a coercible year.
  The `season` selector stays a `String` with the literal `"All"` sentinel,
  exactly as compared in the code.
* A pandas `NaN` arising from `mean()` of an empty column is modelled as
  `Option.none`; sums over an empty selection are `0`, as in pandas.
* Plotly figure construction is presentation-only and out of scope; the
  comparison component is modelled down to the data (stats / trend series)
  each figure is built from, keeping the exact control flow that decides
  between the placeholder ("empty comparison") result and a populated one.
-/

/-- One record of the dataset, after `DataLoader._clean_data` has run:
`Year` is an integer, `% Difference Numeric` a number. -/
structure Row where
  year : Int
  season : String
  area : ℚ
  burned : ℚ
  difference : ℚ
  pctNumeric : ℚ
  deriving Repr, DecidableEq

/-- One raw record as read from the CSV, before cleaning: the
`% Difference` column is still a percentage-formatted string. -/
structure RawRow where
  year : Int
  season : String
  area : ℚ
  burned : ℚ
  difference : ℚ
  pctString : String
  deriving Repr, DecidableEq

/-- Parse a list of decimal digit characters into a natural number, as the
integer or fractional part of a Python `float(...)` literal; fails on any
non-digit character. -/
def parseDigits (cs : List Char) : Option Nat :=
  cs.foldlM (fun acc c => if c.isDigit then some (acc * 10 + (c.toNat - 48)) else none) 0

/-- Parse an unsigned decimal literal such as `"12.5"` or `"10"` into `ℚ`,
mirroring Python `float` on the simple decimal strings this dataset holds. -/
def parseDecimalChars (cs : List Char) : Option ℚ :=
  let intPart := cs.takeWhile (fun c => c ≠ '.')
  let rest := cs.dropWhile (fun c => c ≠ '.')
  match rest with
  | [] => (parseDigits intPart).map (fun n => (n : ℚ))
  | _ :: frac =>
      match parseDigits intPart, parseDigits frac with
      | some n, some f => some ((n : ℚ) + (f : ℚ) / (10 : ℚ) ^ frac.length)
      | _, _ => none

/-- Parse a possibly signed decimal literal into `ℚ`. -/
def parseDecimal (s : String) : Option ℚ :=
  match s.data with
  | '-' :: rest => (parseDecimalChars rest).map (fun q => -q)
  | cs => parseDecimalChars cs

/-- The `.str.replace("%", "", regex=False)` step of `_clean_data`: remove
every `%` character. -/
def stripPercent (s : String) : String :=
  ⟨s.data.filter (fun c => c ≠ '%')⟩

/-- Clean one raw row: derive the numeric `% Difference Numeric` field from
the `% Difference` string (strip `%`, coerce to float); fails (as
`astype(float)` raises) when the remainder is not a decimal literal. -/
def cleanRow (r : RawRow) : Option Row :=
  (parseDecimal (stripPercent r.pctString)).map
    (fun q => ⟨r.year, r.season, r.area, r.burned, r.difference, q⟩)

/-- `DataLoader._clean_data` over the whole table for a file without a
`% Difference Numeric` column: every row's percentage string is normalized;
any failure aborts the load (the exception propagates out of `_load_data`). -/
def clean_data : List RawRow → Option (List Row)
  | [] => some []
  | r :: rs => (cleanRow r).bind (fun row => (clean_data rs).map (fun rest => row :: rest))

/-- `DataLoader.filter_data`: keep rows matching the season (unless the
selector is the `"All"` sentinel), then rows matching the year (unless the
selector is `"All"`, i.e. `none`). -/
def filter_data (rows : List Row) (season : String) (year : Option Int) : List Row :=
  let bySeason := if season ≠ "All" then rows.filter (fun r => r.season == season) else rows
  match year with
  | none => bySeason
  | some y => bySeason.filter (fun r => r.year == y)

/-- Result shape of `DataLoader.get_summary_stats`. `pct_avg = none` models
the pandas `NaN` produced by `mean()` on an empty selection. -/
structure SummaryStats where
  total_area : ℚ
  burned_area : ℚ
  difference : ℚ
  pct_avg : Option ℚ
  deriving Repr, DecidableEq

/-- Sum of a column over a list of rows (pandas `.sum()`, which is 0 on an
empty selection). -/
def sumBy (f : Row → ℚ) (rows : List Row) : ℚ :=
  (rows.map f).sum

/-- Mean of a list of values (pandas `.mean()`): `NaN` (here `none`) when
the list is empty. -/
def meanOpt (xs : List ℚ) : Option ℚ :=
  if xs.isEmpty then none else some (xs.sum / xs.length)

/-- `DataLoader.get_summary_stats`: filter, then sum the three area columns
and average the numeric percentage column. -/
def get_summary_stats (rows : List Row) (season : String) (year : Option Int) : SummaryStats :=
  let df := filter_data rows season year
  { total_area := sumBy (fun r => r.area) df
    burned_area := sumBy (fun r => r.burned) df
    difference := sumBy (fun r => r.difference) df
    pct_avg := meanOpt (df.map (fun r => r.pctNumeric)) }

/-- The sorted distinct seasons of the dataset (`sorted(unique)`), without
the sentinel. -/
def distinctSeasons (rows : List Row) : List String :=
  List.insertionSort (fun a b => a ≤ b) ((rows.map (fun r => r.season)).dedup)

/-- `DataLoader.get_seasons`: the `"All"` sentinel prepended to the sorted
distinct seasons. -/
def get_seasons (rows : List Row) : List String :=
  "All" :: distinctSeasons rows

/-- The sorted distinct years of a list of rows, as produced by pandas
`groupby("Year")` (group keys sorted ascending) and by `get_years`. -/
def sortedYears (rows : List Row) : List Int :=
  List.insertionSort (fun a b => a ≤ b) ((rows.map (fun r => r.year)).dedup)

/-- `DataLoader.get_years`: the `"All"` sentinel is prepended in the UI
layer; here the year catalog is the sorted distinct years. -/
def get_years (rows : List Row) : List Int :=
  sortedYears rows

/-- One row of the DataFrame returned by `DataLoader.get_trend_data`:
columns `Year`, `Area` (per-year sum), `Pct` (per-year mean) and
`RollingAvgPct`. -/
structure TrendRow where
  year : Int
  area : ℚ
  pct : ℚ
  rollingAvgPct : ℚ
  deriving Repr, DecidableEq

/-- The per-year aggregation step of `get_trend_data`: group by year (keys
sorted ascending, as pandas `groupby` does), sum `Area under Production`
and average `% Difference Numeric` within each group. -/
def groupAgg (rows : List Row) : List (Int × ℚ × ℚ) :=
  (sortedYears rows).map (fun y =>
    let grp := rows.filter (fun r => r.year == y)
    (y, sumBy (fun r => r.area) grp, (grp.map (fun r => r.pctNumeric)).sum / grp.length))

/-- Pandas `.rolling(3, min_periods=1).mean()`: entry `i` is the mean of the
at most 3 most recent values among the first `i + 1`. -/
def rollingMean3 (xs : List ℚ) : List ℚ :=
  (List.range xs.length).map (fun i =>
    let w := (xs.take (i + 1)).drop (i + 1 - 3)
    w.sum / w.length)

/-- `DataLoader.get_trend_data`: season-filter with year `"All"`, aggregate
by year, then attach the 3-year trailing rolling average of the per-year
percentage mean. -/
def get_trend_data (rows : List Row) (season : String) : List TrendRow :=
  let agg := groupAgg (filter_data rows season none)
  let roll := rollingMean3 (agg.map (fun t => t.2.2))
  (agg.zip roll).map (fun p => ⟨p.1.1, p.1.2.1, p.1.2.2, p.2⟩)

/-- Result of `YearComparison.create_comparison_figures`, stripped of the
plotly rendering: either the "Select multiple years for comparison"
placeholder, or figures built from the per-year comparison data (year,
its summary stats, and the trend DataFrame attached to it). -/
inductive CompResult where
  | empty
  | populated (data : List (Int × SummaryStats × List TrendRow))
  deriving Repr, DecidableEq

/-- The distinct concrete (non-`"All"`) years of a selection, i.e. the key
set of the `comparison_data` dict built by the loop (`"All"` entries are
skipped; a repeated year overwrites its own dict entry). -/
def concreteYears (years : List (Option Int)) : List Int :=
  (years.filterMap id).dedup

/-- `YearComparison.create_comparison_figures`: short-circuit to the
placeholder when the selection is empty, is exactly `["All"]`, or has fewer
than 2 entries; otherwise collect per-year stats plus the whole-season
trend DataFrame, and fall back to the placeholder when fewer than 2 valid
years produced data. The per-year `filter_data`/`get_summary_stats` calls
are total here (the year selector is already coerced), so the `except`
branch of the loop is unreachable in this model. -/
def create_comparison_figures (rows : List Row) (season : String)
    (years : List (Option Int)) : CompResult :=
  if years.isEmpty ∨ years = [none] ∨ years.length < 2 then .empty
  else
    let cd := (concreteYears years).map (fun y =>
      (y, get_summary_stats rows season (some y), get_trend_data rows season))
    if cd.length < 2 then .empty else .populated cd

/-- One row of a forecast DataFrame: columns `Year`, `Forecast`,
`Lower_CI`, `Upper_CI`. -/
structure ForecastRow where
  year : Int
  forecast : ℚ
  lower : ℚ
  upper : ℚ
  deriving Repr, DecidableEq

/-- The metrics dict returned next to a forecast DataFrame: either MAE /
RMSE / model name on success, or the failure reason under the key
`error` on a caught exception. -/
inductive FitMetrics where
  | ok (mae rmse : ℚ) (model_type : String)
  | error (msg : String)
  deriving Repr, DecidableEq

/-- `Forecasting.prepare_forecast_data`: season-filter with year `"All"`,
group by year, reduce the chosen metric column (`area` and `burned` by
sum, `pct_diff` by mean); any other metric string raises
`ValueError("Invalid metric specified")`, modelled as `Except.error`. -/
def prepare_forecast_data (rows : List Row) (season : String) (metric : String) :
    Except String (List (Int × ℚ)) :=
  let df := filter_data rows season none
  if metric = "area" then
    .ok ((sortedYears df).map (fun y => (y, sumBy (fun r => r.area) (df.filter (fun r => r.year == y)))))
  else if metric = "burned" then
    .ok ((sortedYears df).map (fun y => (y, sumBy (fun r => r.burned) (df.filter (fun r => r.year == y)))))
  else if metric = "pct_diff" then
    .ok ((sortedYears df).map (fun y =>
      let grp := df.filter (fun r => r.year == y)
      (y, (grp.map (fun r => r.pctNumeric)).sum / grp.length)))
  else
    .error "Invalid metric specified"

/-- The outcome of the statistical work done inside the `try` block of
`exponential_smoothing_forecast` by the external statsmodels / sklearn
libraries: per forecast step a `(point, lower, upper)` triple (the code
widens the point by `± 1.96 × std`), plus the MAE and RMSE of the fitted
values. Modelled abstractly because the fit is library code, not part of
this repository. -/
def FitOutcome := List (ℚ × ℚ × ℚ) × ℚ × ℚ

/-- Type of the external model-fitting step: it may raise (e.g. on a
degenerate series), which the surrounding `try` converts into the
degraded result. -/
def FitFun := List (Int × ℚ) → Nat → Except String FitOutcome

/-- `Forecasting._create_empty_forecast`: a forecast DataFrame with zero
rows (the `periods` argument is ignored by the source, too). -/
def create_empty_forecast (_periods : Nat) : List ForecastRow :=
  []

/-- `data['Year'].max()` over the prepared series. -/
def maxYearOf (data : List (Int × ℚ)) : Int :=
  (data.map (fun p => p.1)).foldl (fun a b => max a b) 0

/-- `Forecasting.exponential_smoothing_forecast`, parameterized by the
external statsmodels fit: on success, forecast rows for the years
`max(year)+1 .. max(year)+periods` with confidence bounds and
MAE / RMSE metrics; on any exception from the fit, the caught-exception
branch returns the empty forecast DataFrame together with the failure
reason in the metrics dict. The total return type reflects that the
`except Exception` clause lets no exception propagate to the caller. -/
def exponential_smoothing_forecast (fit : FitFun) (data : List (Int × ℚ))
    (periods : Nat) : List ForecastRow × FitMetrics :=
  match fit data periods with
  | .error e => (create_empty_forecast periods, FitMetrics.error e)
  | .ok out =>
      let maxY := maxYearOf data
      let yrs := (List.range periods).map (fun i => maxY + (i : Int) + 1)
      ((yrs.zip out.1).map (fun p => ⟨p.1, p.2.1, p.2.2.1, p.2.2.2⟩),
        FitMetrics.ok out.2.1 out.2.2 "Exponential Smoothing")

/-- Modelled from the spec: the statsmodels `ExponentialSmoothing(... ).fit()`
call is external library code absent from this repository; per the spec it
requires a series of at least 2 non-degenerate points and raises on
shorter input. Successful fits are left abstract (their numeric output is
library-defined); this model only commits to the failure condition the
spec states. -/
def specExponentialFit : FitFun := fun data _periods =>
  if data.length < 2 then .error "series too short to fit" else
    .ok ([], 0, 0)

/-- The trailing window pandas `rolling(3, min_periods=1)` averages at
position `i`: the at most 3 most recent entries among the first `i + 1`. -/
def trailingWindow (xs : List ℚ) (i : Nat) : List ℚ :=
  (xs.take (i + 1)).drop (i + 1 - 3)

/-- Demo dataset: one season, four consecutive years with per-year
percentage values 10, 20, 30, 40 — the rolling-average boundary scenario. -/
def demoC1Rows : List Row :=
  [⟨2018, "Rabi", 100, 5, 95, 10⟩,
   ⟨2019, "Rabi", 110, 6, 104, 20⟩,
   ⟨2020, "Rabi", 120, 7, 113, 30⟩,
   ⟨2021, "Rabi", 130, 8, 122, 40⟩]

/-- The raw two-row round-trip dataset, percentage column still formatted
as strings. -/
def demoC3Raw : List RawRow :=
  [⟨2020, "Rabi", 100, 10, 90, "10%"⟩,
   ⟨2021, "Rabi", 120, 15, 105, "12.5%"⟩]

/-- The cleaned form of `demoC3Raw` (`12.5 = 25/2`). -/
def demoC3Rows : List Row :=
  [⟨2020, "Rabi", 100, 10, 90, 10⟩,
   ⟨2021, "Rabi", 120, 15, 105, 25/2⟩]

/-- Demo dataset with two seasons, for the season-partition additivity
scenario. -/
def demoMixRows : List Row :=
  [⟨2020, "Kharif", 50, 5, 45, 8⟩,
   ⟨2020, "Rabi", 100, 10, 90, 10⟩,
   ⟨2021, "Rabi", 120, 15, 105, 25/2⟩]

/-- The comparison data assembled for years 2020 and 2021 of `demoC1Rows`. -/
def demoCompData : List (Int × SummaryStats × List TrendRow) :=
  [(2020, get_summary_stats demoC1Rows "Rabi" (some 2020), get_trend_data demoC1Rows "Rabi"),
   (2021, get_summary_stats demoC1Rows "Rabi" (some 2021), get_trend_data demoC1Rows "Rabi")]

/-! ## Theorems -/

/-- C2: for every (season, year) selector pair whose filtered View is empty,
`get_summary_stats` returns `total_area = 0`, `burned_area = 0`,
`difference = 0` and an undefined (`NaN`, here `none`) percentage average;
it is a total function (no exception) and the average is not coerced to 0. -/
theorem get_summary_stats_empty_view (rows : List Row) (season : String)
    (year : Option Int) (h : filter_data rows season year = []) :
    get_summary_stats rows season year = ⟨0, 0, 0, none⟩ := by
  simp [get_summary_stats, h, sumBy, meanOpt]

theorem get_summary_stats_empty_view_witness :
    filter_data demoC1Rows "Rabi" (some 1999) = [] ∧
    get_summary_stats demoC1Rows "Rabi" (some 1999) = ⟨0, 0, 0, none⟩ :=
  ⟨by decide, get_summary_stats_empty_view demoC1Rows "Rabi" (some 1999) (by decide)⟩

/-- C3: loading the two-row dataset normalizes the percentage strings
(`"10%" ↦ 10`, `"12.5%" ↦ 25/2`), `filter_data "Rabi" "All"` keeps both
rows, and the summary statistics are `total_area = 220`,
`burned_area = 25`, `difference = 195`, `pct_avg = 45/4 = 11.25`. -/
theorem load_filter_summary_round_trip :
    clean_data demoC3Raw = some demoC3Rows ∧
    filter_data demoC3Rows "Rabi" none = demoC3Rows ∧
    get_summary_stats demoC3Rows "Rabi" none = ⟨220, 25, 195, some (45/4)⟩ := by
  have hp1 : parseDecimal (stripPercent "10%") = some ((10 : ℕ) : ℚ) := rfl
  have hp2 : parseDecimal (stripPercent "12.5%") =
      some (((12 : ℕ) : ℚ) + ((5 : ℕ) : ℚ) / (10 : ℚ) ^ 1) := rfl
  refine ⟨?_, ?_, ?_⟩
  · simp [clean_data, demoC3Raw, demoC3Rows, cleanRow, hp1, hp2]
    norm_num
  · simp [filter_data, demoC3Rows]
  · simp [get_summary_stats, filter_data, demoC3Rows, sumBy, meanOpt]
    norm_num

/-- C4: `filter_data` is idempotent — applying the same season and year
predicates to an already-filtered View returns exactly the same rows. -/
theorem filter_data_idempotent (rows : List Row) (season : String) (year : Option Int) :
    filter_data (filter_data rows season year) season year =
      filter_data rows season year := by
  cases year with
  | none =>
      by_cases hs : season ≠ "All" <;>
        simp [filter_data, hs, List.filter_filter, Bool.and_comm, Bool.and_left_comm,
          Bool.and_assoc]
  | some y =>
      by_cases hs : season ≠ "All" <;>
        simp [filter_data, hs, List.filter_filter, Bool.and_comm, Bool.and_left_comm,
          Bool.and_assoc]

/-- C10 counterexample: the year 1999 lies outside the dataset's enumerated
year set, yet `filter_data` neither raises an `InvalidSelectorError` (no
such exception exists anywhere in the code; the function's only failure
mode is the `int()` coercion of a non-numeric string) nor flags the
result: it silently returns an ordinary empty DataFrame, and
`get_summary_stats` happily aggregates it. -/
theorem filter_data_invalid_year_unflagged_cex :
    (1999 : Int) ∉ get_years demoC3Rows ∧
    (1999 : Int) ∉ demoC3Rows.map (fun r => r.year) ∧
    filter_data demoC3Rows "Rabi" (some 1999) = [] ∧
    get_summary_stats demoC3Rows "Rabi" (some 1999) = ⟨0, 0, 0, none⟩ := by
  refine ⟨by decide, by decide, by decide, by decide⟩

/-- C10 amended: `filter_data` performs no membership validation of its
selectors. A concrete integer year outside the dataset's year set, or a
concrete season outside the dataset's season set, silently yields an
empty View — an ordinary unflagged result, not an `InvalidSelectorError`. -/
theorem filter_data_no_selector_validation (rows : List Row) (season : String) (y : Int) :
    (y ∉ rows.map (fun r => r.year) → filter_data rows season (some y) = []) ∧
    (season ≠ "All" → season ∉ rows.map (fun r => r.season) →
      ∀ year, filter_data rows season year = []) := by
  constructor
  · intro hy
    have main : ∀ (l : List Row), (∀ r ∈ l, r ∈ rows) →
        l.filter (fun r => r.year == y) = [] := by
      intro l hsub
      apply List.filter_eq_nil_iff.mpr
      intro r hr hEq
      exact hy (List.mem_map.mpr ⟨r, hsub r hr, by simpa using hEq⟩)
    by_cases hs : season ≠ "All"
    · have hunf : filter_data rows season (some y) =
          (rows.filter (fun r => r.season == season)).filter (fun r => r.year == y) := by
        simp [filter_data, hs]
      rw [hunf]
      exact main _ (fun r hr => List.mem_of_mem_filter hr)
    · have hunf : filter_data rows season (some y) =
          rows.filter (fun r => r.year == y) := by
        simp [filter_data, hs]
      rw [hunf]
      exact main _ (fun r hr => hr)
  · intro hs hmem year
    have h0 : rows.filter (fun r => r.season == season) = [] := by
      apply List.filter_eq_nil_iff.mpr
      intro r hr hEq
      exact hmem (List.mem_map.mpr ⟨r, hr, by simpa using hEq⟩)
    cases year with
    | none => simp [filter_data, hs, h0]
    | some yv => simp [filter_data, hs, h0]

theorem filter_data_no_selector_validation_witness :
    filter_data demoC3Rows "Rabi" (some 1999) = [] ∧
    filter_data demoC3Rows "Zaid" none = [] :=
  ⟨(filter_data_no_selector_validation demoC3Rows "Rabi" 1999).1 (by decide),
   (filter_data_no_selector_validation demoC3Rows "Zaid" 1999).2 (by decide) (by decide) none⟩

/-- C6: `create_comparison_figures` returns the insufficient-selection
placeholder — never an exception — whenever the selection holds fewer than
2 distinct concrete (non-`"All"`) years, covering the empty selection and
a single year; for two distinct concrete years present in the data it
returns the populated result carrying the summary stats of both years. -/
theorem create_comparison_figures_selection (rows : List Row) (season : String)
    (years : List (Option Int)) (y1 y2 : Int) :
    ((concreteYears years).length < 2 →
      create_comparison_figures rows season years = .empty) ∧
    (y1 ≠ y2 → y1 ∈ rows.map (fun r => r.year) → y2 ∈ rows.map (fun r => r.year) →
      create_comparison_figures rows season [some y1, some y2] =
        .populated
          [(y1, get_summary_stats rows season (some y1), get_trend_data rows season),
           (y2, get_summary_stats rows season (some y2), get_trend_data rows season)]) := by
  constructor
  · intro hlt
    unfold create_comparison_figures
    split
    · rfl
    · rw [if_pos]
      simpa using hlt
  · intro hne _ _
    have hkeys : concreteYears [some y1, some y2] = [y1, y2] := by
      simp [concreteYears, List.dedup_cons_of_not_mem, hne]
    unfold create_comparison_figures
    rw [if_neg (by simp), hkeys]
    rfl

theorem create_comparison_figures_selection_witness :
    create_comparison_figures demoC1Rows "Rabi" [] = .empty ∧
    create_comparison_figures demoC1Rows "Rabi" [some 2020] = .empty ∧
    create_comparison_figures demoC1Rows "Rabi" [some 2020, some 2021] =
      .populated demoCompData :=
  ⟨(create_comparison_figures_selection demoC1Rows "Rabi" [] 2020 2021).1 (by decide),
   (create_comparison_figures_selection demoC1Rows "Rabi" [some 2020] 2020 2021).1 (by decide),
   (create_comparison_figures_selection demoC1Rows "Rabi" [some 2020, some 2021] 2020 2021).2
     (by decide) (by decide) (by decide)⟩

/-- C7: in every populated comparison result, the trend data attached to
each selected year is the whole-season trend series
`get_trend_data rows season` (which season-filters with year `"All"`),
identical for all selected years — not a series filtered down to the
individual year. -/
theorem comparison_trend_is_whole_season (rows : List Row) (season : String)
    (years : List (Option Int)) (cd : List (Int × SummaryStats × List TrendRow))
    (h : create_comparison_figures rows season years = .populated cd) :
    (∀ e ∈ cd, e.2.2 = get_trend_data rows season) ∧
    (∀ e1 ∈ cd, ∀ e2 ∈ cd, e1.2.2 = e2.2.2) := by
  have hcd : cd = (concreteYears years).map (fun yv =>
      (yv, get_summary_stats rows season (some yv), get_trend_data rows season)) := by
    unfold create_comparison_figures at h
    simp only [List.length_map] at h
    split at h
    · exact absurd h (by simp)
    · split at h
      · exact absurd h (by simp)
      · exact ((CompResult.populated.injEq _ _).mp h).symm
  have hmem : ∀ e ∈ cd, e.2.2 = get_trend_data rows season := by
    intro e he
    rw [hcd] at he
    obtain ⟨yv, _, rfl⟩ := List.mem_map.mp he
    rfl
  exact ⟨hmem, fun e1 h1 e2 h2 => (hmem e1 h1).trans (hmem e2 h2).symm⟩

theorem comparison_trend_is_whole_season_witness :
    ((2020, get_summary_stats demoC1Rows "Rabi" (some 2020),
        get_trend_data demoC1Rows "Rabi") :
      Int × SummaryStats × List TrendRow).2.2 = get_trend_data demoC1Rows "Rabi" :=
  (comparison_trend_is_whole_season demoC1Rows "Rabi" [some 2020, some 2021]
      demoCompData (by rfl)).1 _ (by simp [demoCompData])

/-- C8: a model-fit failure inside `exponential_smoothing_forecast` is
caught by its `try`/`except` and converted into the degraded result: a
forecast DataFrame with zero rows whose metrics dict carries the failure
reason instead of MAE / RMSE. The first conjunct holds for every possible
behavior of the external fit; the second specializes it to any fit obeying
the spec's requirement that a series of length < 2 cannot be fitted. The
function's total return type is the formal statement that the exception
never propagates to the caller. -/
theorem exponential_forecast_failure_degrades (fit : FitFun)
    (data : List (Int × ℚ)) (periods : Nat) (e : String) :
    (fit data periods = .error e →
      exponential_smoothing_forecast fit data periods =
        (create_empty_forecast periods, FitMetrics.error e)) ∧
    ((∀ d p, List.length d < 2 → ∃ msg, fit d p = Except.error msg) →
      data.length < 2 →
      ∃ msg, exponential_smoothing_forecast fit data periods =
        ([], FitMetrics.error msg)) := by
  constructor
  · intro hfit
    unfold exponential_smoothing_forecast
    rw [hfit]
  · intro hshort hlen
    obtain ⟨msg, hmsg⟩ := hshort data periods hlen
    refine ⟨msg, ?_⟩
    unfold exponential_smoothing_forecast
    rw [hmsg]
    rfl

theorem exponential_forecast_failure_degrades_witness :
    exponential_smoothing_forecast specExponentialFit [((2020 : Int), (5 : ℚ))] 3 =
      (create_empty_forecast 3, FitMetrics.error "series too short to fit") :=
  (exponential_forecast_failure_degrades specExponentialFit [((2020 : Int), (5 : ℚ))] 3
      "series too short to fit").1 (by rfl)

/-- The year keys produced by pandas `groupby("Year")` are strictly
ascending: sorted by insertion sort and duplicate-free by `dedup`. -/
theorem sortedYears_sorted_lt (rows : List Row) :
    List.Sorted (fun a b : Int => a < b) (sortedYears rows) := by
  have hs : List.Sorted (fun a b : Int => a ≤ b) (sortedYears rows) :=
    List.sorted_insertionSort _ _
  have hn : (sortedYears rows).Nodup :=
    (List.perm_insertionSort _ _).nodup_iff.mpr (List.nodup_dedup _)
  exact hs.lt_of_le hn

/-- C9: `prepare_forecast_data` succeeds exactly on the closed metric set:
`area` and `burned` produce the per-year sums of their columns, `pct_diff`
the per-year mean, each indexed by the strictly ascending distinct years of
the season-filtered view; any other metric string yields the
`Invalid metric specified` error (the spec's `InvalidMetricError`) instead
of silently defaulting. -/
theorem prepare_forecast_data_metric (rows : List Row) (season : String) (metric : String) :
    (prepare_forecast_data rows season "area" =
      .ok ((sortedYears (filter_data rows season none)).map (fun y =>
        (y, sumBy (fun r => r.area)
          ((filter_data rows season none).filter (fun r => r.year == y)))))) ∧
    (prepare_forecast_data rows season "burned" =
      .ok ((sortedYears (filter_data rows season none)).map (fun y =>
        (y, sumBy (fun r => r.burned)
          ((filter_data rows season none).filter (fun r => r.year == y)))))) ∧
    (prepare_forecast_data rows season "pct_diff" =
      .ok ((sortedYears (filter_data rows season none)).map (fun y =>
        (y, (((filter_data rows season none).filter (fun r => r.year == y)).map
              (fun r => r.pctNumeric)).sum /
            ((((filter_data rows season none).filter (fun r => r.year == y)).length : ℚ)))))) ∧
    (metric ∉ (["area", "burned", "pct_diff"] : List String) →
      prepare_forecast_data rows season metric = .error "Invalid metric specified") ∧
    (∀ v, prepare_forecast_data rows season metric = Except.ok v →
      List.Sorted (fun a b : Int => a < b) (v.map (fun p => p.1))) := by
  have map_fst_pairs : ∀ (l : List Int) (g : Int → ℚ),
      (l.map (fun y => ((y, g y) : Int × ℚ))).map (fun p => p.1) = l := by
    intro l g
    rw [List.map_map]
    simp [Function.comp_def]
  refine ⟨rfl, rfl, rfl, ?_, ?_⟩
  · intro hmem
    simp only [List.mem_cons, not_or] at hmem
    obtain ⟨h1, h2, h3, -⟩ := hmem
    unfold prepare_forecast_data
    rw [if_neg h1, if_neg h2, if_neg h3]
  · intro v hv
    unfold prepare_forecast_data at hv
    split_ifs at hv with h1 h2 h3
    · have hv2 : v = (sortedYears (filter_data rows season none)).map (fun y =>
          (y, sumBy (fun r => r.area)
            ((filter_data rows season none).filter (fun r => r.year == y)))) :=
        ((Except.ok.injEq _ _).mp hv).symm
      subst hv2
      rw [map_fst_pairs]
      exact sortedYears_sorted_lt _
    · have hv2 : v = (sortedYears (filter_data rows season none)).map (fun y =>
          (y, sumBy (fun r => r.burned)
            ((filter_data rows season none).filter (fun r => r.year == y)))) :=
        ((Except.ok.injEq _ _).mp hv).symm
      subst hv2
      rw [map_fst_pairs]
      exact sortedYears_sorted_lt _
    · have hv2 : v = (sortedYears (filter_data rows season none)).map (fun y =>
          (y, (((filter_data rows season none).filter (fun r => r.year == y)).map
                (fun r => r.pctNumeric)).sum /
              ((((filter_data rows season none).filter (fun r => r.year == y)).length : ℚ)))) :=
        ((Except.ok.injEq _ _).mp hv).symm
      subst hv2
      rw [map_fst_pairs]
      exact sortedYears_sorted_lt _

theorem prepare_forecast_data_metric_witness :
    prepare_forecast_data demoC3Rows "Rabi" "bogus" = .error "Invalid metric specified" ∧
    List.Sorted (fun a b : Int => a < b)
      (((sortedYears (filter_data demoC3Rows "Rabi" none)).map (fun y =>
        (y, sumBy (fun r => r.area)
          ((filter_data demoC3Rows "Rabi" none).filter (fun r => r.year == y))))).map
        (fun p => p.1)) :=
  ⟨(prepare_forecast_data_metric demoC3Rows "Rabi" "bogus").2.2.2.1 (by decide),
   (prepare_forecast_data_metric demoC3Rows "Rabi" "area").2.2.2.2 _ (by rfl)⟩

/-- The rolling-average column has one entry per aggregated year
(`min_periods=1` never errors on short history). -/
theorem rollingMean3_length (xs : List ℚ) : (rollingMean3 xs).length = xs.length := by
  simp [rollingMean3]

/-- Entry `i` of the rolling mean is the mean of the trailing window at
`i`. -/
theorem rollingMean3_get (xs : List ℚ) (i : Nat) (h : i < xs.length) :
    (rollingMean3 xs).get ⟨i, by rw [rollingMean3_length]; exact h⟩ =
      (trailingWindow xs i).sum / ((trailingWindow xs i).length : ℚ) := by
  simp [rollingMean3, trailingWindow, List.get_eq_getElem]

/-- The trailing window at a valid position holds exactly
`min (i + 1) 3` values: 1 or 2 at the start of the series, 3 afterwards,
never more. -/
theorem trailingWindow_length (xs : List ℚ) (i : Nat) (h : i < xs.length) :
    (trailingWindow xs i).length = min (i + 1) 3 := by
  simp [trailingWindow]
  omega

/-- C1: for every season selector, entry `i` of the trend series carries in
`RollingAvgPct` the mean of the trailing window (at most the 3 most recent
per-year `Pct` means, clipped to available history — the window length is
exactly `min (i+1) 3`, so the computation is total on short history); and
on the concrete series of years `[2018, 2019, 2020, 2021]` with per-year
means `[10, 20, 30, 40]` the rolling values are `[10, 15, 20, 30]`. -/
theorem get_trend_data_rolling_avg :
    (∀ (rows : List Row) (season : String) (i : Nat)
        (h : i < (get_trend_data rows season).length),
      ((get_trend_data rows season).get ⟨i, h⟩).rollingAvgPct =
          (trailingWindow ((get_trend_data rows season).map (fun t => t.pct)) i).sum /
            ((trailingWindow ((get_trend_data rows season).map (fun t => t.pct)) i).length : ℚ) ∧
      (trailingWindow ((get_trend_data rows season).map (fun t => t.pct)) i).length =
          min (i + 1) 3) ∧
    get_trend_data demoC1Rows "Rabi" =
      [⟨2018, 100, 10, 10⟩, ⟨2019, 110, 20, 15⟩, ⟨2020, 120, 30, 20⟩, ⟨2021, 130, 40, 30⟩] := by
  constructor
  · intro rows season i h
    have hdef : get_trend_data rows season =
        ((groupAgg (filter_data rows season none)).zip
          (rollingMean3 ((groupAgg (filter_data rows season none)).map (fun t => t.2.2)))).map
          (fun p => (⟨p.1.1, p.1.2.1, p.1.2.2, p.2⟩ : TrendRow)) := rfl
    set agg := groupAgg (filter_data rows season none) with hagg
    set pcts := agg.map (fun t => t.2.2) with hpcts
    have hlenr : (rollingMean3 pcts).length = agg.length := by
      rw [rollingMean3_length, hpcts, List.length_map]
    have hlent : (get_trend_data rows season).length = agg.length := by
      rw [hdef, List.length_map, List.length_zip, hlenr, Nat.min_self]
    have hi : i < agg.length := hlent ▸ h
    have hip : i < pcts.length := by rw [hpcts, List.length_map]; exact hi
    have hpct : (get_trend_data rows season).map (fun t => t.pct) = pcts := by
      apply List.ext_getElem
      · rw [List.length_map, hlent, hpcts, List.length_map]
      · intro j h1 h2
        simp [hdef, hpcts, List.getElem_zip]
    have hget : ((get_trend_data rows season).get ⟨i, h⟩).rollingAvgPct =
        (rollingMean3 pcts).get ⟨i, by rw [rollingMean3_length, hpcts, List.length_map]; exact hi⟩ := by
      rw [List.get_eq_getElem, List.get_eq_getElem]
      simp [hdef, List.getElem_zip]
    constructor
    · rw [hget, rollingMean3_get pcts i hip, hpct]
    · rw [hpct]
      exact trailingWindow_length pcts i hip
  · have hr : List.range 4 = [0, 1, 2, 3] := rfl
    simp [get_trend_data, groupAgg, sortedYears, filter_data, demoC1Rows, sumBy,
      rollingMean3, List.insertionSort, List.orderedInsert,
      List.dedup_cons_of_not_mem, List.dedup_cons_of_mem, hr, trailingWindow]
    norm_num

theorem get_trend_data_rolling_avg_witness :
    ((get_trend_data demoC1Rows "Rabi").get
        ⟨3, by rw [(get_trend_data_rolling_avg).2]; decide⟩).rollingAvgPct =
      (trailingWindow ((get_trend_data demoC1Rows "Rabi").map (fun t => t.pct)) 3).sum /
        ((trailingWindow ((get_trend_data demoC1Rows "Rabi").map (fun t => t.pct)) 3).length : ℚ) :=
  ((get_trend_data_rolling_avg).1 demoC1Rows "Rabi" 3 _).1

/-- Pointwise addition distributes over a list sum. -/
theorem sum_map_add_q {α : Type} (f g : α → ℚ) (l : List α) :
    (l.map (fun x => f x + g x)).sum = (l.map f).sum + (l.map g).sum := by
  induction l with
  | nil => simp
  | cons a l ih =>
      simp only [List.map_cons, List.sum_cons, ih]
      ring

/-- Over a duplicate-free key list containing `k0`, the indicator map sums
to the single contribution at `k0`. -/
theorem sum_single_key {κ : Type} [DecidableEq κ] (k0 : κ) (c : ℚ) :
    ∀ (ks : List κ), ks.Nodup → k0 ∈ ks →
      (ks.map (fun k => if k0 = k then c else 0)).sum = c := by
  intro ks
  induction ks with
  | nil => intro _ h; exact absurd h (List.not_mem_nil _)
  | cons k ks ih =>
      intro hnd hmem
      rcases List.mem_cons.mp hmem with h1 | h1
      · subst h1
        have hz : (ks.map (fun k => if k0 = k then c else 0)).sum = 0 := by
          apply List.sum_eq_zero
          intro x hx
          obtain ⟨k', hk', rfl⟩ := List.mem_map.mp hx
          have hne : k0 ≠ k' := by
            rintro rfl
            exact (List.nodup_cons.mp hnd).1 hk'
          simp [hne]
        simp [hz]
      · have hne : k0 ≠ k := by
          rintro rfl
          exact (List.nodup_cons.mp hnd).1 h1
        simp [hne, ih (List.nodup_cons.mp hnd).2 h1]

/-- Summing a filtered column per key over a duplicate-free key list that
covers every row recovers the whole-table sum: the keys partition the
rows. -/
theorem sum_partition {κ : Type} [DecidableEq κ] (key : Row → κ) (col : Row → ℚ) :
    ∀ (rows : List Row) (ks : List κ), ks.Nodup → (∀ r ∈ rows, key r ∈ ks) →
      (ks.map (fun k => ((rows.filter (fun r => key r == k)).map col).sum)).sum
        = (rows.map col).sum := by
  intro rows
  induction rows with
  | nil => intro ks _ _; simp
  | cons r rest ih =>
      intro ks hnd hmem
      have hr : key r ∈ ks := hmem r (List.mem_cons_self _ _)
      have hrest : ∀ x ∈ rest, key x ∈ ks := fun x hx => hmem x (List.mem_cons_of_mem _ hx)
      have hsplit : ∀ k : κ, (((r :: rest).filter (fun x => key x == k)).map col).sum
          = (if key r = k then col r else 0)
            + ((rest.filter (fun x => key x == k)).map col).sum := by
        intro k
        by_cases hk : key r = k
        · simp [List.filter_cons, hk]
        · simp [List.filter_cons, hk]
      have hcong : (ks.map (fun k => (((r :: rest).filter (fun x => key x == k)).map col).sum))
          = ks.map (fun k => (if key r = k then col r else 0)
              + ((rest.filter (fun x => key x == k)).map col).sum) :=
        List.map_congr_left (fun k _ => hsplit k)
      rw [hcong, sum_map_add_q, sum_single_key (key r) (col r) ks hnd hr, ih ks hnd hrest]
      simp

/-- The distinct-season catalog has no duplicates. -/
theorem distinctSeasons_nodup (rows : List Row) : (distinctSeasons rows).Nodup :=
  (List.perm_insertionSort _ _).nodup_iff.mpr (List.nodup_dedup _)

/-- Every row's season appears in the distinct-season catalog. -/
theorem mem_distinctSeasons (rows : List Row) (r : Row) (hr : r ∈ rows) :
    r.season ∈ distinctSeasons rows := by
  have hm : r.season ∈ (rows.map (fun x => x.season)).dedup :=
    List.mem_dedup.mpr (List.mem_map.mpr ⟨r, hr, rfl⟩)
  exact (List.perm_insertionSort _ _).mem_iff.mpr hm

/-- C5: for a dataset whose season column never holds the `"All"` sentinel
(seasons come from a closed enum set), the totals of
`get_summary_stats "All" "All"` equal the sums of the corresponding totals
of `get_summary_stats s "All"` over the distinct seasons `s` of the
dataset — the season Views partition the rows. -/
theorem summary_stats_season_additivity (rows : List Row)
    (hseason : ∀ r ∈ rows, r.season ≠ "All") :
    (get_summary_stats rows "All" none).total_area =
      ((distinctSeasons rows).map
        (fun s => (get_summary_stats rows s none).total_area)).sum ∧
    (get_summary_stats rows "All" none).burned_area =
      ((distinctSeasons rows).map
        (fun s => (get_summary_stats rows s none).burned_area)).sum ∧
    (get_summary_stats rows "All" none).difference =
      ((distinctSeasons rows).map
        (fun s => (get_summary_stats rows s none).difference)).sum := by
  have hAll : filter_data rows "All" none = rows := by simp [filter_data]
  have hfil : ∀ s ∈ distinctSeasons rows, filter_data rows s none
      = rows.filter (fun r => r.season == s) := by
    intro s hs
    have hne : s ≠ "All" := by
      intro hEq
      subst hEq
      have hm : "All" ∈ (rows.map (fun x => x.season)).dedup :=
        (List.perm_insertionSort _ _).mem_iff.mp hs
      obtain ⟨r, hr, hr2⟩ := List.mem_map.mp (List.mem_dedup.mp hm)
      exact hseason r hr hr2
    simp [filter_data, hne]
  have key : ∀ col : Row → ℚ,
      ((distinctSeasons rows).map (fun s => sumBy col (filter_data rows s none))).sum
        = sumBy col rows := by
    intro col
    have h1 : ((distinctSeasons rows).map (fun s => sumBy col (filter_data rows s none)))
        = (distinctSeasons rows).map
            (fun s => ((rows.filter (fun r => r.season == s)).map col).sum) :=
      List.map_congr_left (fun s hs => by rw [hfil s hs]; rfl)
    rw [h1]
    exact sum_partition (fun r => r.season) col rows (distinctSeasons rows)
      (distinctSeasons_nodup rows) (fun r hr => mem_distinctSeasons rows r hr)
  refine ⟨?_, ?_, ?_⟩
  · have hk := key (fun r => r.area)
    simpa [get_summary_stats, hAll] using hk.symm
  · have hk := key (fun r => r.burned)
    simpa [get_summary_stats, hAll] using hk.symm
  · have hk := key (fun r => r.difference)
    simpa [get_summary_stats, hAll] using hk.symm

theorem summary_stats_season_additivity_witness :
    (get_summary_stats demoMixRows "All" none).total_area =
      ((distinctSeasons demoMixRows).map
        (fun s => (get_summary_stats demoMixRows s none).total_area)).sum :=
  (summary_stats_season_additivity demoMixRows (by decide)).1
